import Mathlib

/-!
Verification of `src/device/servo.cpp` (STM32F4 servo PWM driver).

The program is a single translation unit: `main` initialises the HAL, the
clock tree (`SystemClock_Config`), the GPIO pin mux (`MX_GPIO_Init`) and
timer TIM3 channel 1 in PWM mode (`MX_TIM3_Init`), starts PWM output, and
then loops forever writing the compare values 50, 75, 100 with a 1000 ms
delay after each write.

The embedding records the configuration records the program passes to the
HAL calls (faithful to the struct fields assigned in the source) and the
observable call trace of `main` as an infinite stream of events.  The HAL
itself is not part of the repository; the call boundary is the observable.
Hardware-derived frequencies (HSI oscillator value, the STM32 rule that an
APB timer clock is doubled when the APB prescaler is not 1) are standard
device semantics, stated in doc comments where used.
-/

namespace Servo

/-- HAL return status (`HAL_StatusTypeDef`): OK, ERROR, BUSY, TIMEOUT.
Every configuration call in the source discards this value. -/
inductive HALStatus where
  | ok
  | error
  | busy
  | hwTimeout
deriving DecidableEq

/-- Oscillator selector (`RCC_OSCILLATORTYPE_*`). The source selects HSI. -/
inductive OscillatorTypeVal where
  | HSI
  | HSE
  | LSI
  | LSE
deriving DecidableEq

/-- PLL state (`RCC_PLL_ON` / `RCC_PLL_OFF` / `RCC_PLL_NONE`). -/
inductive PLLStateVal where
  | pllOn
  | pllOff
  | pllNone
deriving DecidableEq

/-- PLL input source (`RCC_PLLSOURCE_HSI` / `RCC_PLLSOURCE_HSE`). -/
inductive PLLSourceVal where
  | HSI
  | HSE
deriving DecidableEq

/-- System clock source (`RCC_SYSCLKSOURCE_*`). -/
inductive SysclkSourceVal where
  | HSI
  | HSE
  | PLLCLK
deriving DecidableEq

/-- Regulator voltage scale (`PWR_REGULATOR_VOLTAGE_SCALE1/2/3`). -/
inductive VoltageScaleVal where
  | scale1
  | scale2
  | scale3
deriving DecidableEq

/-- GPIO pin mode (`GPIO_MODE_*`); the source uses alternate-function
push-pull. -/
inductive GPIOModeVal where
  | input
  | outputPP
  | outputOD
  | afPP
  | afOD
  | analog
deriving DecidableEq

/-- GPIO pull resistor setting (`GPIO_NOPULL`, `GPIO_PULLUP`,
`GPIO_PULLDOWN`). -/
inductive GPIOPullVal where
  | noPull
  | pullUp
  | pullDown
deriving DecidableEq

/-- GPIO output speed class (`GPIO_SPEED_FREQ_*`). -/
inductive GPIOSpeedVal where
  | low
  | medium
  | high
  | veryHigh
deriving DecidableEq

/-- Timer counting direction (`TIM_COUNTERMODE_UP` / `_DOWN`). -/
inductive CounterModeVal where
  | up
  | down
deriving DecidableEq

/-- Output-compare mode (`TIM_OCMODE_*`); the source uses PWM mode 1. -/
inductive OCModeVal where
  | pwm1
  | pwm2
  | timing
  | active
  | inactive
  | toggle
deriving DecidableEq

/-- Output polarity (`TIM_OCPOLARITY_HIGH` / `_LOW`). -/
inductive OCPolarityVal where
  | high
  | low
deriving DecidableEq

/-- Fast-mode flag (`TIM_OCFAST_DISABLE` / `_ENABLE`). -/
inductive OCFastModeVal where
  | disable
  | enable
deriving DecidableEq

/-- Timer output channel (`TIM_CHANNEL_*`); the program only uses
channel 1. -/
inductive TimChannel where
  | ch1
  | ch2
  | ch3
  | ch4
deriving DecidableEq

/-- PLL block of `RCC_OscInitTypeDef`.  `PLLP` holds the literal division
factor, matching the HAL macros (`RCC_PLLP_DIV4` is the value 4). -/
structure RCC_PLLInitTypeDef where
  PLLState : PLLStateVal
  PLLSource : PLLSourceVal
  PLLM : Nat
  PLLN : Nat
  PLLP : Nat
  PLLQ : Nat
deriving DecidableEq

/-- Oscillator configuration record passed to `HAL_RCC_OscConfig`. -/
structure RCC_OscInitTypeDef where
  OscillatorType : OscillatorTypeVal
  HSIState : Bool
  HSICalibrationValue : Nat
  PLL : RCC_PLLInitTypeDef
deriving DecidableEq

/-- Clock configuration record passed to `HAL_RCC_ClockConfig`.
`ClockType` is the OR of the `RCC_CLOCKTYPE_*` bits (SYSCLK 1, HCLK 2,
PCLK1 4, PCLK2 8).  The divider fields hold the literal division factors
denoted by the macros (`RCC_SYSCLK_DIV1` divides by 1, `RCC_HCLK_DIV2`
by 2). -/
structure RCC_ClkInitTypeDef where
  ClockType : Nat
  SYSCLKSource : SysclkSourceVal
  AHBCLKDivider : Nat
  APB1CLKDivider : Nat
  APB2CLKDivider : Nat
deriving DecidableEq

/-- GPIO pin configuration record passed to `HAL_GPIO_Init`.  `Pin` is the
`GPIO_PIN_6` bitmask (bit 6); `Alternate` is the AF number
(`GPIO_AF2_TIM3` is 2). -/
structure GPIO_InitTypeDef where
  Pin : Nat
  Mode : GPIOModeVal
  Pull : GPIOPullVal
  Speed : GPIOSpeedVal
  Alternate : Nat
deriving DecidableEq

/-- Timer base configuration (`htim3.Init`).  `Prescaler` and `Period` are
the register values (one less than the division factor / tick count).
`ClockDivision` holds the literal factor (`TIM_CLOCKDIVISION_DIV1` is 1). -/
structure TIM_Base_InitTypeDef where
  Prescaler : Nat
  CounterMode : CounterModeVal
  Period : Nat
  ClockDivision : Nat
deriving DecidableEq

/-- Output-compare channel configuration passed to
`HAL_TIM_PWM_ConfigChannel`.  `Pulse` is the starting compare value. -/
structure TIM_OC_InitTypeDef where
  OCMode : OCModeVal
  Pulse : Nat
  OCPolarity : OCPolarityVal
  OCFastMode : OCFastModeVal
deriving DecidableEq

/-- Flash wait-state count passed to `HAL_RCC_ClockConfig`
(`FLASH_LATENCY_2` is 2 wait states). -/
def FLASH_LATENCY_2 : Nat := 2

/-- Default HSI calibration (`RCC_HSICALIBRATION_DEFAULT` is 16). -/
def RCC_HSICALIBRATION_DEFAULT : Nat := 16

/-- The oscillator configuration built in `SystemClock_Config`
(servo.cpp lines 45-53): HSI on, default calibration, PLL on with the HSI
as source, M = 16, N = 336, P = DIV4, Q = 7. -/
def RCC_OscInitStruct : RCC_OscInitTypeDef where
  OscillatorType := OscillatorTypeVal.HSI
  HSIState := true
  HSICalibrationValue := RCC_HSICALIBRATION_DEFAULT
  PLL :=
    { PLLState := PLLStateVal.pllOn
      PLLSource := PLLSourceVal.HSI
      PLLM := 16
      PLLN := 336
      PLLP := 4
      PLLQ := 7 }

/-- The clock configuration built in `SystemClock_Config`
(servo.cpp lines 56-61): all four clock domains, SYSCLK from the PLL,
AHB divider 1, APB1 divider 2, APB2 divider 1. -/
def RCC_ClkInitStruct : RCC_ClkInitTypeDef where
  ClockType := 2 ||| 1 ||| 4 ||| 8
  SYSCLKSource := SysclkSourceVal.PLLCLK
  AHBCLKDivider := 1
  APB1CLKDivider := 2
  APB2CLKDivider := 1

/-- The pin configuration built in `MX_GPIO_Init` (servo.cpp lines 70-74):
PA6 as alternate-function push-pull, no pull, low speed, AF2 (TIM3). -/
def GPIO_InitStruct : GPIO_InitTypeDef where
  Pin := 64
  Mode := GPIOModeVal.afPP
  Pull := GPIOPullVal.noPull
  Speed := GPIOSpeedVal.low
  Alternate := 2

/-- The timer base configuration built in `MX_TIM3_Init`
(servo.cpp lines 85-88): prescaler register 84 - 1, count up,
period register 20000 - 1, clock division 1. -/
def htim3Init : TIM_Base_InitTypeDef where
  Prescaler := 84 - 1
  CounterMode := CounterModeVal.up
  Period := 20000 - 1
  ClockDivision := 1

/-- The output-compare channel configuration built in `MX_TIM3_Init`
(servo.cpp lines 91-94): PWM mode 1, pulse 75, active high, fast mode
disabled. -/
def sConfigOC : TIM_OC_InitTypeDef where
  OCMode := OCModeVal.pwm1
  Pulse := 75
  OCPolarity := OCPolarityVal.high
  OCFastMode := OCFastModeVal.disable

/-- One observable step of `main`: a call across the HAL boundary.
`setCompare` is the `__HAL_TIM_SET_COMPARE` macro (a direct register
write), `delay` is `HAL_Delay` with its millisecond argument. -/
inductive Event where
  | halInit
  | voltageScale (s : VoltageScaleVal)
  | oscConfig (cfg : RCC_OscInitTypeDef)
  | clockConfig (cfg : RCC_ClkInitTypeDef) (flashLatency : Nat)
  | gpioInit (cfg : GPIO_InitTypeDef)
  | pwmInit (cfg : TIM_Base_InitTypeDef)
  | pwmConfigChannel (cfg : TIM_OC_InitTypeDef) (ch : TimChannel)
  | pwmStart (ch : TimChannel)
  | setCompare (ch : TimChannel) (v : Nat)
  | delay (ms : Nat)
deriving DecidableEq

/-- The statuses the HAL environment returns for each fallible call the
program makes.  The source never reads any of them. -/
structure HalStatuses where
  halInitStatus : HALStatus
  oscConfigStatus : HALStatus
  clockConfigStatus : HALStatus
  pwmInitStatus : HALStatus
  pwmConfigChannelStatus : HALStatus
  pwmStartStatus : HALStatus
deriving DecidableEq

/-- Events of `SystemClock_Config` (servo.cpp lines 37-63): voltage
scaling, then `HAL_RCC_OscConfig`, then `HAL_RCC_ClockConfig`.  The two
return statuses are bound here only to record that the source discards
them at statement level. -/
def SystemClock_ConfigEvents (s : HalStatuses) : List Event :=
  let _discardedOsc := s.oscConfigStatus
  let _discardedClk := s.clockConfigStatus
  [Event.voltageScale VoltageScaleVal.scale1,
   Event.oscConfig RCC_OscInitStruct,
   Event.clockConfig RCC_ClkInitStruct FLASH_LATENCY_2]

/-- Events of `MX_GPIO_Init` (servo.cpp lines 65-76): one
`HAL_GPIO_Init` call (the clock-gate enable is a register macro with no
status). -/
def MX_GPIO_InitEvents : List Event :=
  [Event.gpioInit GPIO_InitStruct]

/-- Events of `MX_TIM3_Init` (servo.cpp lines 78-96):
`HAL_TIM_PWM_Init` then `HAL_TIM_PWM_ConfigChannel`, both statuses
discarded. -/
def MX_TIM3_InitEvents (s : HalStatuses) : List Event :=
  let _discardedInit := s.pwmInitStatus
  let _discardedCfg := s.pwmConfigChannelStatus
  [Event.pwmInit htim3Init,
   Event.pwmConfigChannel sConfigOC TimChannel.ch1]

/-- The startup events of `main` (servo.cpp lines 12-17), in program
order: `HAL_Init`, `SystemClock_Config`, `MX_GPIO_Init`, `MX_TIM3_Init`,
`HAL_TIM_PWM_Start`. -/
def mainStartupEvents (s : HalStatuses) : List Event :=
  let _discardedHal := s.halInitStatus
  let _discardedStart := s.pwmStartStatus
  [Event.halInit] ++ SystemClock_ConfigEvents s ++ MX_GPIO_InitEvents
    ++ MX_TIM3_InitEvents s ++ [Event.pwmStart TimChannel.ch1]

/-- One iteration of the `while (1)` body (servo.cpp lines 19-32): write
50, delay 1000 ms, write 75, delay 1000 ms, write 100, delay 1000 ms. -/
def mainLoopBody : List Event :=
  [Event.setCompare TimChannel.ch1 50, Event.delay 1000,
   Event.setCompare TimChannel.ch1 75, Event.delay 1000,
   Event.setCompare TimChannel.ch1 100, Event.delay 1000]

/-- The infinite event trace of `main` under a given assignment of HAL
return statuses: the startup events followed by the loop body repeated
forever. -/
def mainTraceWith (s : HalStatuses) (n : Nat) : Event :=
  if h : n < (mainStartupEvents s).length then (mainStartupEvents s).get ⟨n, h⟩
  else mainLoopBody.get
    ⟨(n - (mainStartupEvents s).length) % mainLoopBody.length,
     Nat.mod_lt _ (by decide)⟩

/-- A fixed status assignment (all calls succeed), used as the base point
of the trace. -/
def okStatuses : HalStatuses where
  halInitStatus := HALStatus.ok
  oscConfigStatus := HALStatus.ok
  clockConfigStatus := HALStatus.ok
  pwmInitStatus := HALStatus.ok
  pwmConfigChannelStatus := HALStatus.ok
  pwmStartStatus := HALStatus.ok

/-- The event trace of `main`. -/
def mainTrace : Nat → Event := mainTraceWith okStatuses

/-- The HSI internal oscillator frequency of the STM32F4 family
(`HSI_VALUE`), 16 MHz. -/
def HSI_VALUE : Nat := 16000000

/-- PLL voltage-controlled-oscillator frequency: the PLL input divided by
M, multiplied by N (standard STM32F4 PLL semantics, with the HSI selected
as input in `RCC_OscInitStruct`). -/
def pllVcoHz : Nat := HSI_VALUE / RCC_OscInitStruct.PLL.PLLM * RCC_OscInitStruct.PLL.PLLN

/-- System clock frequency: the VCO output divided by P.  With the
source's values this is 16 MHz / 16 * 336 / 4 = 84 MHz. -/
def sysclkHz : Nat := pllVcoHz / RCC_OscInitStruct.PLL.PLLP

/-- AHB (core bus) clock: SYSCLK divided by the AHB divider. -/
def hclkHz : Nat := sysclkHz / RCC_ClkInitStruct.AHBCLKDivider

/-- APB1 peripheral clock: HCLK divided by the APB1 divider. -/
def pclk1Hz : Nat := hclkHz / RCC_ClkInitStruct.APB1CLKDivider

/-- TIM3 input clock.  TIM3 sits on APB1; by the STM32 clock-tree rule,
a timer on an APB bus whose prescaler is not 1 receives twice the APB
clock. -/
def tim3ClkHz : Nat :=
  if RCC_ClkInitStruct.APB1CLKDivider = 1 then pclk1Hz else 2 * pclk1Hz

/-- Counter tick rate: the timer input clock divided by the prescaler
register value plus one (hardware divides by PSC + 1). -/
def tickRateHz : Nat := tim3ClkHz / (htim3Init.Prescaler + 1)

/-- PWM frame frequency: the tick rate divided by the period register
value plus one (the counter counts 0 .. Period, so a frame is
Period + 1 ticks). -/
def pwmFreqHz : Nat := tickRateHz / (htim3Init.Period + 1)

/-- PWM frame period in milliseconds, as an exact rational. -/
def framePeriodMs : ℚ := (htim3Init.Period + 1 : ℚ) * 1000 / (tickRateHz : ℚ)

/-- Width of the high pulse, in milliseconds, produced by a compare value
`v` in edge-aligned PWM mode 1 with active-high polarity: the output is
high for `v` ticks of the counter. -/
def pulseWidthMs (v : Nat) : ℚ := (v : ℚ) * 1000 / (tickRateHz : ℚ)

/-- Duty cycle in percent for a compare value `v`: high for `v` of the
`Period + 1` ticks of a frame. -/
def dutyPercent (v : Nat) : ℚ := (v : ℚ) * 100 / (htim3Init.Period + 1 : ℚ)

/-- The reference cyclic sequence of the spec: 50, 75, 100 repeating. -/
def cyclicVal (m : Nat) : Nat :=
  [50, 75, 100].get ⟨m % 3, Nat.mod_lt _ (by decide)⟩

/-- An event emitted by the control loop (a compare write or a delay), as
opposed to a startup event. -/
def isLoopEvent : Event → Bool
  | Event.setCompare _ _ => true
  | Event.delay _ => true
  | _ => false

/-- Value of the TIM3 channel-1 compare register after the first `n`
events of the trace: set to `Pulse` by the channel configuration, and
overwritten by every `setCompare`; `none` before the channel is
configured. -/
def compareRegAfter : Nat → Option Nat
  | 0 => none
  | n + 1 =>
    match mainTrace n with
    | Event.pwmConfigChannel cfg _ => some cfg.Pulse
    | Event.setCompare _ v => some v
    | _ => compareRegAfter n

/-- Whether PWM output has been started after the first `n` events. -/
def pwmOnAfter : Nat → Bool
  | 0 => false
  | n + 1 =>
    match mainTrace n with
    | Event.pwmStart _ => true
    | _ => pwmOnAfter n

/-! ### Trace structure lemmas -/

lemma startupEvents_length (s : HalStatuses) : (mainStartupEvents s).length = 8 := rfl

lemma loopBody_length : mainLoopBody.length = 6 := rfl

/-- The loop-region element of the trace at offset `k`, as a function of
`k % 6`. -/
def loopEventAt (k : Nat) : Event :=
  mainLoopBody.get ⟨k % mainLoopBody.length, Nat.mod_lt _ (by decide)⟩

lemma loopEventAt_mod (k : Nat) : loopEventAt k = loopEventAt (k % 6) := by
  simp only [loopEventAt]
  congr 1
  apply Fin.ext
  show k % mainLoopBody.length = k % 6 % mainLoopBody.length
  rw [loopBody_length]
  omega

/-- After the 8 startup events, the trace is the loop body cycled. -/
lemma mainTrace_loop (k : Nat) : mainTrace (8 + k) = loopEventAt k := by
  have h : ¬ (8 + k < (mainStartupEvents okStatuses).length) := by
    rw [startupEvents_length]; omega
  show mainTraceWith okStatuses (8 + k) = loopEventAt k
  simp only [mainTraceWith, loopEventAt]
  rw [dif_neg h]
  congr 1
  apply Fin.ext
  show (8 + k - (mainStartupEvents okStatuses).length) % mainLoopBody.length
      = k % mainLoopBody.length
  rw [startupEvents_length, Nat.add_sub_cancel_left]

lemma cyclicVal_of_mod0 (m : Nat) (h : m % 3 = 0) : cyclicVal m = 50 := by
  simp only [cyclicVal, h]
  rfl

lemma cyclicVal_of_mod1 (m : Nat) (h : m % 3 = 1) : cyclicVal m = 75 := by
  simp only [cyclicVal, h]
  rfl

lemma cyclicVal_of_mod2 (m : Nat) (h : m % 3 = 2) : cyclicVal m = 100 := by
  simp only [cyclicVal, h]
  rfl

/-- The `m`-th compare write of the trace sits at index `8 + 2m` and
writes the `m`-th value of the cyclic reference sequence. -/
lemma mainTrace_write (m : Nat) :
    mainTrace (8 + 2 * m) = Event.setCompare TimChannel.ch1 (cyclicVal m) := by
  rw [mainTrace_loop, loopEventAt_mod]
  have h3 : m % 3 = 0 ∨ m % 3 = 1 ∨ m % 3 = 2 := by omega
  rcases h3 with h | h | h
  · rw [cyclicVal_of_mod0 m h]
    have h6 : 2 * m % 6 = 0 := by omega
    rw [h6]
    decide
  · rw [cyclicVal_of_mod1 m h]
    have h6 : 2 * m % 6 = 2 := by omega
    rw [h6]
    decide
  · rw [cyclicVal_of_mod2 m h]
    have h6 : 2 * m % 6 = 4 := by omega
    rw [h6]
    decide

/-- None of the 8 startup events is a loop event. -/
lemma startup_not_loop : ∀ n, n < 8 → isLoopEvent (mainTrace n) = false := by decide

/-- Conversely, every compare write in the trace is the `m`-th write of
the cyclic sequence, on channel 1, at index `8 + 2m`. -/
lemma mainTrace_write_inv (n : Nat) (ch : TimChannel) (v : Nat)
    (hw : mainTrace n = Event.setCompare ch v) :
    ∃ m, n = 8 + 2 * m ∧ ch = TimChannel.ch1 ∧ v = cyclicVal m := by
  by_cases hn : n < 8
  · have hfalse := startup_not_loop n hn
    rw [hw] at hfalse
    simp [isLoopEvent] at hfalse
  · have hk : n = 8 + (n - 8) := by omega
    rw [hk, mainTrace_loop, loopEventAt_mod] at hw
    set k := n - 8 with hkdef
    have h6 : k % 6 = 0 ∨ k % 6 = 1 ∨ k % 6 = 2 ∨ k % 6 = 3 ∨ k % 6 = 4 ∨ k % 6 = 5 := by
      omega
    rcases h6 with h | h | h | h | h | h <;> rw [h] at hw
    · refine ⟨k / 2, by omega, ?_⟩
      rw [cyclicVal_of_mod0 (k / 2) (by omega)]
      rw [show loopEventAt 0 = Event.setCompare TimChannel.ch1 50 from by decide] at hw
      injection hw with hch hv
      exact ⟨hch.symm, hv.symm⟩
    · rw [show loopEventAt 1 = Event.delay 1000 from by decide] at hw
      exact Event.noConfusion hw
    · refine ⟨k / 2, by omega, ?_⟩
      rw [cyclicVal_of_mod1 (k / 2) (by omega)]
      rw [show loopEventAt 2 = Event.setCompare TimChannel.ch1 75 from by decide] at hw
      injection hw with hch hv
      exact ⟨hch.symm, hv.symm⟩
    · rw [show loopEventAt 3 = Event.delay 1000 from by decide] at hw
      exact Event.noConfusion hw
    · refine ⟨k / 2, by omega, ?_⟩
      rw [cyclicVal_of_mod2 (k / 2) (by omega)]
      rw [show loopEventAt 4 = Event.setCompare TimChannel.ch1 100 from by decide] at hw
      injection hw with hch hv
      exact ⟨hch.symm, hv.symm⟩
    · rw [show loopEventAt 5 = Event.delay 1000 from by decide] at hw
      exact Event.noConfusion hw

/-- Every trace index at or after the startup region holds a loop event. -/
lemma loop_region : ∀ i, 8 ≤ i → isLoopEvent (mainTrace i) = true := by
  intro i hi
  rw [show i = 8 + (i - 8) from by omega, mainTrace_loop, loopEventAt_mod]
  have h6 : (i - 8) % 6 = 0 ∨ (i - 8) % 6 = 1 ∨ (i - 8) % 6 = 2 ∨
      (i - 8) % 6 = 3 ∨ (i - 8) % 6 = 4 ∨ (i - 8) % 6 = 5 := by omega
  rcases h6 with h | h | h | h | h | h <;> rw [h] <;> decide

/-! ### Claims -/

/-- C1: the spec and the source comments state that the compare values
50, 75, 100, divided by the 1 MHz counter tick rate, give 1.0 ms, 1.5 ms
and 2.0 ms pulses.  In fact, with the configured tick rate of exactly
1,000,000 ticks per second, those compare values give 0.05 ms, 0.075 ms
and 0.1 ms pulses — the code contradicts its own comments ("// 1 ms",
"// 1.5 ms", "// 2 ms" in servo.cpp lines 22, 26, 30). -/
theorem C1_pulse_width_code_bug :
    tickRateHz = 1000000 ∧
    pulseWidthMs 50 = 1 / 20 ∧ pulseWidthMs 75 = 3 / 40 ∧ pulseWidthMs 100 = 1 / 10 ∧
    pulseWidthMs 50 ≠ 1 ∧ pulseWidthMs 75 ≠ 3 / 2 ∧ pulseWidthMs 100 ≠ 2 := by
  have ht : tickRateHz = 1000000 := rfl
  refine ⟨ht, ?_, ?_, ?_, ?_, ?_, ?_⟩ <;> norm_num [pulseWidthMs, ht]

/-- C2: the configured prescaler register (84 - 1, dividing the 84 MHz
TIM3 input clock by 84) gives a 1 MHz counter tick rate, and the period
register (20000 - 1) makes the frame (Period + 1) / tickRate = 20 ms,
i.e. a 50 Hz frame. -/
theorem C2_frame_period_20ms :
    htim3Init.Prescaler = 84 - 1 ∧ htim3Init.Period = 20000 - 1 ∧
    tim3ClkHz = 84000000 ∧ tickRateHz = tim3ClkHz / 84 ∧ tickRateHz = 1000000 ∧
    framePeriodMs = 20 ∧ pwmFreqHz = 50 := by
  have hp : htim3Init.Period = 19999 := rfl
  have ht : tickRateHz = 1000000 := rfl
  refine ⟨rfl, rfl, rfl, rfl, rfl, ?_, rfl⟩
  norm_num [framePeriodMs, hp, ht]

/-- C3: the sequence of values the control loop writes to the compare
register is exactly the infinite cyclic sequence 50, 75, 100 repeating:
the m-th write (at trace index 8 + 2m) writes the m-th element of the
cyclic reference sequence, every compare write in the trace is such a
write, and the reference sequence is 50, 75, 100 with period 3. -/
theorem C3_compare_sequence_cyclic :
    (∀ m, mainTrace (8 + 2 * m) = Event.setCompare TimChannel.ch1 (cyclicVal m)) ∧
    (∀ n ch v, mainTrace n = Event.setCompare ch v →
      ∃ m, n = 8 + 2 * m ∧ ch = TimChannel.ch1 ∧ v = cyclicVal m) ∧
    cyclicVal 0 = 50 ∧ cyclicVal 1 = 75 ∧ cyclicVal 2 = 100 ∧
    (∀ m, cyclicVal (m + 3) = cyclicVal m) := by
  refine ⟨mainTrace_write, mainTrace_write_inv, rfl, rfl, rfl, ?_⟩
  intro m
  simp only [cyclicVal]
  congr 1
  apply Fin.ext
  show (m + 3) % 3 = m % 3
  omega

/-- Witness for C3 at the first write: trace index 8 writes 50. -/
theorem C3_compare_sequence_cyclic_witness :
    ∃ m, 8 = 8 + 2 * m ∧ TimChannel.ch1 = TimChannel.ch1 ∧ 50 = cyclicVal m :=
  C3_compare_sequence_cyclic.2.1 8 TimChannel.ch1 50 (by decide)

/-- C4: after every compare write the very next event is a 1000 ms delay,
and the event after that is the next compare write, on the same channel,
with a different value, following the fixed succession
50 to 75 to 100 to 50 — so each state is held 1000 ms and no state is
skipped or repeated consecutively. -/
theorem C4_hold_1000ms_then_next :
    ∀ n ch v, mainTrace n = Event.setCompare ch v →
      mainTrace (n + 1) = Event.delay 1000 ∧
      ∃ w, mainTrace (n + 2) = Event.setCompare ch w ∧ w ≠ v ∧
        (v = 50 → w = 75) ∧ (v = 75 → w = 100) ∧ (v = 100 → w = 50) := by
  intro n ch v hw
  obtain ⟨m, hn, hch, hv⟩ := mainTrace_write_inv n ch v hw
  subst hn
  subst hch
  subst hv
  constructor
  · rw [show 8 + 2 * m + 1 = 8 + (2 * m + 1) from by omega, mainTrace_loop,
      loopEventAt_mod]
    have h3 : m % 3 = 0 ∨ m % 3 = 1 ∨ m % 3 = 2 := by omega
    rcases h3 with h | h | h
    · rw [show (2 * m + 1) % 6 = 1 from by omega]; decide
    · rw [show (2 * m + 1) % 6 = 3 from by omega]; decide
    · rw [show (2 * m + 1) % 6 = 5 from by omega]; decide
  · refine ⟨cyclicVal (m + 1), ?_, ?_⟩
    · rw [show 8 + 2 * m + 2 = 8 + 2 * (m + 1) from by omega]
      exact mainTrace_write (m + 1)
    · have h3 : m % 3 = 0 ∨ m % 3 = 1 ∨ m % 3 = 2 := by omega
      rcases h3 with h | h | h
      · rw [cyclicVal_of_mod0 m h, cyclicVal_of_mod1 (m + 1) (by omega)]
        exact ⟨by decide, by decide, by decide, by decide⟩
      · rw [cyclicVal_of_mod1 m h, cyclicVal_of_mod2 (m + 1) (by omega)]
        exact ⟨by decide, by decide, by decide, by decide⟩
      · rw [cyclicVal_of_mod2 m h, cyclicVal_of_mod0 (m + 1) (by omega)]
        exact ⟨by decide, by decide, by decide, by decide⟩

/-- Witness for C4 at the first write (index 8, value 50). -/
theorem C4_hold_1000ms_then_next_witness :
    mainTrace (8 + 1) = Event.delay 1000 ∧
    ∃ w, mainTrace (8 + 2) = Event.setCompare TimChannel.ch1 w ∧ w ≠ 50 ∧
      (50 = 50 → w = 75) ∧ (50 = 75 → w = 100) ∧ (50 = 100 → w = 50) :=
  C4_hold_1000ms_then_next 8 TimChannel.ch1 50 (by decide)

/-- C5: the startup of `main` performs, in this exact order and each
exactly once, HAL initialisation (index 0), clock configuration
(voltage scaling, oscillator, clock tree: indices 1-3), GPIO
configuration (index 4), timer and PWM-channel configuration
(indices 5-6) and PWM start (index 7); every later index is a
control-loop event, the first eight events are pairwise distinct, and no
compare write occurs before index 8 (hence none before PWM start). -/
theorem C5_startup_order :
    mainTrace 0 = Event.halInit ∧
    mainTrace 1 = Event.voltageScale VoltageScaleVal.scale1 ∧
    mainTrace 2 = Event.oscConfig RCC_OscInitStruct ∧
    mainTrace 3 = Event.clockConfig RCC_ClkInitStruct FLASH_LATENCY_2 ∧
    mainTrace 4 = Event.gpioInit GPIO_InitStruct ∧
    mainTrace 5 = Event.pwmInit htim3Init ∧
    mainTrace 6 = Event.pwmConfigChannel sConfigOC TimChannel.ch1 ∧
    mainTrace 7 = Event.pwmStart TimChannel.ch1 ∧
    (∀ i, i < 8 → isLoopEvent (mainTrace i) = false) ∧
    (∀ i, 8 ≤ i → isLoopEvent (mainTrace i) = true) ∧
    (∀ i, i < 8 → ∀ j, j < 8 → mainTrace i = mainTrace j → i = j) ∧
    (∀ i ch v, mainTrace i = Event.setCompare ch v → 8 ≤ i) := by
  refine ⟨by decide, by decide, by decide, by decide, by decide, by decide,
    by decide, by decide, startup_not_loop, loop_region, by decide, ?_⟩
  intro i ch v hw
  obtain ⟨m, hn, -, -⟩ := mainTrace_write_inv i ch v hw
  omega

/-- Witness for C5: the compare write at index 8 is not before index 8. -/
theorem C5_startup_order_witness : 8 ≤ 8 :=
  C5_startup_order.2.2.2.2.2.2.2.2.2.2.2 8 TimChannel.ch1 50 (by decide)

/-- C6: the clock configuration selects the HSI as PLL source (PLL on,
HSI oscillator on), enables voltage scaling (scale 1), switches SYSCLK to
the PLL output, and sets the bus dividers to AHB / 1, APB1 / 2, APB2 / 1
with flash latency 2. -/
theorem C6_clock_config_contract :
    RCC_OscInitStruct.OscillatorType = OscillatorTypeVal.HSI ∧
    RCC_OscInitStruct.HSIState = true ∧
    RCC_OscInitStruct.PLL.PLLState = PLLStateVal.pllOn ∧
    RCC_OscInitStruct.PLL.PLLSource = PLLSourceVal.HSI ∧
    mainTrace 1 = Event.voltageScale VoltageScaleVal.scale1 ∧
    mainTrace 2 = Event.oscConfig RCC_OscInitStruct ∧
    mainTrace 3 = Event.clockConfig RCC_ClkInitStruct FLASH_LATENCY_2 ∧
    RCC_ClkInitStruct.SYSCLKSource = SysclkSourceVal.PLLCLK ∧
    RCC_ClkInitStruct.AHBCLKDivider = 1 ∧
    RCC_ClkInitStruct.APB1CLKDivider = 2 ∧
    RCC_ClkInitStruct.APB2CLKDivider = 1 ∧
    FLASH_LATENCY_2 = 2 := by
  decide

/-- C7: with the configured clock tree (HSI 16 MHz, PLL M = 16, N = 336,
P = 4 giving an 84 MHz system clock; TIM3 clock 84 MHz; prescaler
dividing by 84; period 20000 ticks) the PWM frequency is exactly 50 Hz —
but compare = 75 yields a 0.075 ms pulse and a 0.375 % duty cycle, not
the 1.5 ms / 7.5 % the spec and the source comment state.  Same compare
value slip as C1. -/
theorem C7_end_to_end_code_bug :
    RCC_OscInitStruct.PLL.PLLM = 16 ∧ RCC_OscInitStruct.PLL.PLLN = 336 ∧
    RCC_OscInitStruct.PLL.PLLP = 4 ∧ HSI_VALUE = 16000000 ∧
    sysclkHz = 84000000 ∧ tim3ClkHz = 84000000 ∧ tickRateHz = 1000000 ∧
    pwmFreqHz = 50 ∧ framePeriodMs = 20 ∧
    pulseWidthMs 75 = 3 / 40 ∧ dutyPercent 75 = 3 / 8 ∧
    pulseWidthMs 75 ≠ 3 / 2 ∧ dutyPercent 75 ≠ 15 / 2 := by
  have hp : htim3Init.Period = 19999 := rfl
  have ht : tickRateHz = 1000000 := rfl
  refine ⟨rfl, rfl, rfl, rfl, rfl, rfl, rfl, rfl, ?_, ?_, ?_, ?_, ?_⟩ <;>
    norm_num [framePeriodMs, pulseWidthMs, dutyPercent, hp, ht]

/-- C8: the program discards every HAL return status: the event trace of
`main` is the same function for every assignment of statuses to the six
fallible HAL calls — no branch, halt or retry depends on them. -/
theorem C8_statuses_discarded :
    ∀ s t : HalStatuses, mainTraceWith s = mainTraceWith t := by
  intro s t
  funext n
  rfl

/-- C9: every value ever written to the compare register is one of 50,
75, 100, and each is strictly below the configured period register value
19999, so the implementation-defined boundary behaviours (compare = 0 or
compare at or above the period) are never exercised. -/
theorem C9_compare_values_in_range :
    ∀ n ch v, mainTrace n = Event.setCompare ch v →
      (v = 50 ∨ v = 75 ∨ v = 100) ∧ v < htim3Init.Period := by
  intro n ch v hw
  obtain ⟨m, -, -, hv⟩ := mainTrace_write_inv n ch v hw
  subst hv
  have h3 : m % 3 = 0 ∨ m % 3 = 1 ∨ m % 3 = 2 := by omega
  rcases h3 with h | h | h
  · rw [cyclicVal_of_mod0 m h]
    exact ⟨Or.inl rfl, by decide⟩
  · rw [cyclicVal_of_mod1 m h]
    exact ⟨Or.inr (Or.inl rfl), by decide⟩
  · rw [cyclicVal_of_mod2 m h]
    exact ⟨Or.inr (Or.inr rfl), by decide⟩

/-- Witness for C9 at the first write (index 8, value 50). -/
theorem C9_compare_values_in_range_witness :
    ((50 : Nat) = 50 ∨ (50 : Nat) = 75 ∨ (50 : Nat) = 100) ∧ 50 < htim3Init.Period :=
  C9_compare_values_in_range 8 TimChannel.ch1 50 (by decide)

/-- C10: the channel is configured with initial compare value 75 (index
6) before PWM output is started (index 7), and the first loop write
(index 8) writes 50; so after PWM start and before the first write the
commanded compare register holds 75 (CENTER), not 50 (MIN). -/
theorem C10_initial_pulse_center :
    sConfigOC.Pulse = 75 ∧
    mainTrace 6 = Event.pwmConfigChannel sConfigOC TimChannel.ch1 ∧
    mainTrace 7 = Event.pwmStart TimChannel.ch1 ∧
    pwmOnAfter 7 = false ∧
    pwmOnAfter 8 = true ∧
    compareRegAfter 7 = some 75 ∧
    compareRegAfter 8 = some 75 ∧
    mainTrace 8 = Event.setCompare TimChannel.ch1 50 ∧
    compareRegAfter 9 = some 50 ∧
    (75 : Nat) ≠ 50 ∧
    (∀ i ch v, mainTrace i = Event.setCompare ch v → 8 ≤ i) := by
  refine ⟨rfl, by decide, by decide, by decide, by decide, by decide, by decide,
    by decide, by decide, by decide, ?_⟩
  intro i ch v hw
  obtain ⟨m, hn, -, -⟩ := mainTrace_write_inv i ch v hw
  omega

/-- Witness for C10: the first compare write sits at index 8. -/
theorem C10_initial_pulse_center_witness : 8 ≤ 8 :=
  C10_initial_pulse_center.2.2.2.2.2.2.2.2.2.2 8 TimChannel.ch1 50 (by decide)

end Servo
